import Mathlib

/-!
Shallow embedding of `app.py` (稳盈AI bond-advisory dashboard) and proofs of
the spec's testable properties against it.

The script is a Streamlit page re-executed top-to-bottom on every interaction.
We embed the pieces the claims are about:
  * the startup credential check (`st.secrets` lookup, lines 21–26),
  * the market-data provider `get_market_data` (lines 39–64) and the ETF table
    `get_etf_data` (lines 66–79),
  * the conversation-state seeding guard (lines 181–184) and the clear-history
    button (lines 108–110),
  * the chat-input handler (lines 192–257): user append, prompt construction,
    the streaming call with its try/except, and the assistant append.

External effects are made explicit parameters: the wall clock (`datetime.now`)
becomes a `today`/`now` argument, the seeded numpy standard-normal stream
becomes a function `gauss : Nat → ℚ` (fixed by `np.random.seed(42)`), and the
remote stream's behaviour becomes a `StreamOutcome` value listing the content
deltas delivered before normal completion or before an exception.
-/

/-- Message roles appearing in the script: conversation history holds `user`
and `assistant` entries; the outbound request additionally uses `system`. -/
inductive Role where
  | user
  | assistant
  | system
deriving DecidableEq, Repr

/-- One `{"role": ..., "content": ...}` dict of the script. -/
structure ChatMessage where
  role : Role
  content : String
deriving DecidableEq, Repr

/-- The seeded greeting inserted at line 183 when `"messages"` is absent from
`st.session_state`. -/
def greeting : ChatMessage :=
  ⟨Role.assistant, "你好！我是你的债券顾问。看到上面的图表了吗？现在的市场有点意思。你想了解什么？"⟩

/-- Lines 181–184: `if "messages" not in st.session_state: st.session_state.messages = [greeting]`.
`none` models the key being absent from `st.session_state`. -/
def seedMessages : Option (List ChatMessage) → List ChatMessage
  | none => [greeting]
  | some ms => ms

/-- Lines 108–110: the clear-history button sets `st.session_state.messages = []`
(the key stays present) and reruns. -/
def clearHistory (_ : Option (List ChatMessage)) : Option (List ChatMessage) :=
  some []

/-! ## Startup credential check (lines 21–26) -/

/-- How the credential can be configured: no secrets file at all, a secrets
file without the `DEEPSEEK_API_KEY` entry, or a file providing a value. -/
inductive SecretsState where
  | noSecretsFile
  | fileWithoutKey
  | fileWithKey (value : String)
deriving DecidableEq, Repr

/-- The exceptions `st.secrets["DEEPSEEK_API_KEY"]` can raise. -/
inductive SecretsExc where
  | fileNotFoundError
  | keyError
deriving DecidableEq, Repr

/-- `st.secrets["DEEPSEEK_API_KEY"]`: Streamlit raises `FileNotFoundError` when
no secrets file exists anywhere, and — the secrets object being a standard
mapping — `KeyError` when a secrets file exists but lacks the key. -/
def secretsLookup : SecretsState → Except SecretsExc String
  | .noSecretsFile => .error .fileNotFoundError
  | .fileWithoutKey => .error .keyError
  | .fileWithKey v => .ok v

/-- The message passed to `st.error` at line 25. -/
def configErrorMsg : String := "密钥未配置！请在 Secrets 中配置 DEEPSEEK_API_KEY。"

/-- Result of running lines 21–26. -/
inductive StartupOutcome where
  /-- the lookup succeeded; the script continues with this `API_KEY` -/
  | proceed (apiKey : String)
  /-- `st.error(visibleError)` then `st.stop()`: one visible message, no UI -/
  | halted (visibleError : String)
  /-- an exception not matched by the `except FileNotFoundError` clause -/
  | uncaught (e : SecretsExc)
deriving DecidableEq, Repr

/-- Lines 21–26: `try: API_KEY = st.secrets["DEEPSEEK_API_KEY"]`
`except FileNotFoundError: st.error(...); st.stop()`. Only
`FileNotFoundError` is matched; any other exception propagates. -/
def startupCredentialCheck (s : SecretsState) : StartupOutcome :=
  match secretsLookup s with
  | .ok v => .proceed v
  | .error .fileNotFoundError => .halted configErrorMsg
  | .error e => .uncaught e

/-! ## Chat-input handler (lines 192–257) -/

/-- What the remote stream did on a given turn: `ok chunks` is a stream that
delivered these content deltas (`none` = a chunk whose `delta.content is None`)
and completed; `failMid chunks err` is a stream that delivered `chunks` and
then raised an exception rendered as `err` (a failure of the `create` call
itself is `failMid [] err`). -/
inductive StreamOutcome where
  | ok (chunks : List (Option String))
  | failMid (chunks : List (Option String)) (err : String)

/-- Lines 245–248: `full_response = ""` then
`for chunk in stream: if chunk.choices[0].delta.content is not None: full_response += content`. -/
def accumulate (chunks : List (Option String)) : String :=
  chunks.foldl (fun acc c => match c with | some s => acc ++ s | none => acc) ""

/-- Line 257: `st.error(f"❌ AI 掉线了: {e}")`. -/
def displayedError (err : String) : String := "❌ AI 掉线了: " ++ err

/-- The ambient values the chat-input handler reads when it runs: the current
date string (`datetime.now().strftime`), the latest yields taken from
`df_macro`, the sidebar risk selection, the rendered ETF table, and the
session's message list. -/
structure TurnContext where
  today : String
  latestCn : ℚ
  latestUs : ℚ
  userRisk : String
  etfTable : String
  history : List ChatMessage
deriving DecidableEq, Repr

/-- Abstracts Python's rendering of a float into an f-string by a fixed pure
rendering of the rational; none of the claims depend on its exact digits. -/
def fmtYield (q : ℚ) : String := toString q

/-- Lines 200–211: the `context_data` f-string (interpolation sites replaced by
explicit concatenation). -/
def contextData (today : String) (latestCn latestUs : ℚ)
    (userRisk : String) (etfTable : String) : String :=
  "\n    [当前市场核心数据]\n    - 数据日期: " ++ today
    ++ "\n    - 中国10年期国债收益率: " ++ fmtYield latestCn
    ++ "% (收益率越低，债券价格越贵)\n    - 美国10年期国债收益率: "
    ++ fmtYield latestUs ++ "%\n    \n    [用户画像]\n    - 风险偏好: "
    ++ userRisk ++ "\n    \n    [精选债券ETF池]\n    " ++ etfTable ++ "\n    "

/-- Lines 213–227: the `system_prompt` f-string around `context_data`. -/
def systemPromptTemplate (ctxData : String) : String :=
  "\n    你是一个拥有10年经验的债券基金经理，现在为普通个人投资者提供咨询。\n    \n    【任务】\n    基于提供的[当前市场核心数据]和[用户画像]，回答用户的问题。\n    \n    【原则】\n    1. **说人话**：不要堆砌术语。如果提到“久期”或“YTM”，必须用大白话解释一遍。\n    2. **有观点**：不要模棱两可。如果是牛市高位，明确提示风险；如果是低位，提示机会。\n    3. **结合数据**：回答时必须引用上面的具体数值（例如：“现在的收益率是2.1%...”）。\n    4. **推荐标的**：如果用户问买什么，优先从[精选债券ETF池]里挑选最匹配的。\n    \n    【背景信息】\n    "
    ++ ctxData ++ "\n    "

/-- The system prompt the handler builds from its ambient context. -/
def buildSystemPromptOf (c : TurnContext) : String :=
  systemPromptTemplate
    (contextData c.today c.latestCn c.latestUs c.userRisk c.etfTable)

/-- The body of `client.chat.completions.create(...)` at lines 235–243. -/
structure ChatRequest where
  model : String
  messages : List ChatMessage
  stream : Bool
  temperature : ℚ
deriving DecidableEq, Repr

/-- Lines 235–243: the outbound request for one turn — model `deepseek-chat`,
exactly the system prompt and the latest user query, `stream=True`,
`temperature=0.7`. -/
def turnRequest (c : TurnContext) (userQuery : String) : ChatRequest :=
  { model := "deepseek-chat"
    messages := [⟨Role.system, buildSystemPromptOf c⟩, ⟨Role.user, userQuery⟩]
    stream := true
    temperature := 7/10 }

/-- Lines 192–257: the chat-input handler. Appends the user message (line 197),
builds the prompt and issues the request, then the `try` block: on normal
stream completion appends the assistant message with the accumulated text
(line 254) and shows no error; on an exception anywhere inside the `try`
(including mid-stream) control jumps to `except`, line 254 never runs, and
`st.error` shows a message. Returns the new `st.session_state.messages` and
the error text displayed, if any. -/
def chatInputHandler (c : TurnContext) (userQuery : String)
    (outcome : StreamOutcome) : List ChatMessage × Option String :=
  let msgs := c.history ++ [⟨Role.user, userQuery⟩]
  match outcome with
  | .ok chunks => (msgs ++ [⟨Role.assistant, accumulate chunks⟩], none)
  | .failMid _ err => (msgs, some (displayedError err))

/-! ## Market data provider (lines 39–79) -/

/-- The `i`-th value drawn by `np.random.normal(0, sigma)` after
`np.random.seed(42)`: numpy scales its seeded standard-normal stream by the
requested standard deviation. `gauss i` is the `i`-th standard-normal draw of
the stream, a function of the seed alone. -/
def normalDraw (gauss : Nat → ℚ) (sigma : ℚ) (i : Nat) : ℚ :=
  sigma * gauss i

/-- Floor of a rational as an integer: `x.num / x.den` with Euclidean integer
division (the denominator is positive, so this is the floor). -/
def ratFloor (x : ℚ) : ℤ := x.num / x.den

/-- `np.round` rounds half to even. Nearest integer of a rational with ties to
the even neighbour. -/
def roundHalfEven (x : ℚ) : ℤ :=
  let f := ratFloor x
  let frac := x - f
  if frac < 1/2 then f
  else if 1/2 < frac then f + 1
  else if f % 2 = 0 then f else f + 1

/-- `np.round(·, 4)`: round to 4 decimal places. -/
def round4 (x : ℚ) : ℚ := (roundHalfEven (x * 10000) : ℚ) / 10000

/-- Lines 51–57, domestic series: `cn_yields = [2.10]`, then 59 times
`cn_yields.append(cn_yields[-1] + np.random.normal(0, 0.02))`. Iteration `n`
of the loop draws the `2*n`-th value of the seeded stream (the domestic and
foreign draws interleave). `cnWalk gauss k` is `cn_yields[k]` before rounding. -/
def cnWalk (gauss : Nat → ℚ) : Nat → ℚ
  | 0 => 21/10
  | n + 1 => cnWalk gauss n + normalDraw gauss (2/100) (2 * n)

/-- Lines 52–57, foreign series: `us_yields = [4.20]`, then 59 times
`us_yields.append(us_yields[-1] + np.random.normal(0, 0.05))`; iteration `n`
draws the `2*n+1`-th value of the stream. -/
def usWalk (gauss : Nat → ℚ) : Nat → ℚ
  | 0 => 42/10
  | n + 1 => usWalk gauss n + normalDraw gauss (5/100) (2 * n + 1)

/-- One row of the `df` built at lines 59–63: a date and the two rounded
yields. Dates are time values in days; `datetime.now()` keeps its time of day,
so runs at different instants give different date columns. -/
structure YieldPoint where
  date : Int
  cn : ℚ
  us : ℚ
deriving DecidableEq, Repr

/-- Lines 39–64, `get_market_data` with its two external inputs explicit:
`now` is `datetime.now()` and `gauss` the seeded standard-normal stream.
`date_list = [now - x for x in range(60)][::-1]` puts `now - (59 - i)` at
index `i`; the yield columns are `np.round(walk, 4)`. -/
def getMarketData (gauss : Nat → ℚ) (now : Int) : List YieldPoint :=
  (List.range 60).map fun i : Nat =>
    ⟨now - (59 - (i : Int)), round4 (cnWalk gauss i), round4 (usWalk gauss i)⟩


/-- One row of the table returned by `get_etf_data` (lines 66–79). -/
structure Instrument where
  code : String
  name : String
  lastPrice : ℚ
  monthReturn : String
  riskTier : String
  suitability : String
deriving DecidableEq, Repr

/-- Lines 71–79: the fixed four-row ETF table. -/
def getEtfData : List Instrument :=
  [⟨"511260", "十年国债ETF", 1035/10, "+0.12%", "R2 低风险", "稳健型"⟩,
   ⟨"511010", "国债ETF", 1201/10, "+0.05%", "R2 低风险", "保守型"⟩,
   ⟨"511090", "30年国债ETF", 1052/10, "+0.80%", "R3 中风险", "激进型"⟩,
   ⟨"511220", "城投债ETF", 998/10, "-0.02%", "R3 中风险", "稳健型"⟩]

/-- One line of `df_etf.to_string(index=False)` (column alignment abstracted
to single spaces; the claims depend only on this being a fixed pure rendering). -/
def instrumentRow (i : Instrument) : String :=
  i.code ++ " " ++ i.name ++ " " ++ fmtYield i.lastPrice ++ " "
    ++ i.monthReturn ++ " " ++ i.riskTier ++ " " ++ i.suitability

/-- Line 210: `df_etf.to_string(index=False)` — header line then the four rows. -/
def etfTableString : String :=
  "代码 名称 最新价 近1月涨幅 风险等级 适合人群\n"
    ++ String.intercalate "\n" (getEtfData.map instrumentRow)

/-! ## Helper lemmas -/

/-- Folding the accumulation step from any initial buffer prepends that buffer
to the result of folding from the empty buffer. -/
theorem foldl_accumStep (chunks : List (Option String)) :
    ∀ acc : String,
      chunks.foldl (fun acc c => match c with | some s => acc ++ s | none => acc) acc
        = acc ++ chunks.foldl (fun acc c => match c with | some s => acc ++ s | none => acc) "" := by
  induction chunks with
  | nil => intro acc; simp [List.foldl, String.append_empty]
  | cons hd tl ih =>
    intro acc
    cases hd with
    | none => simpa using ih acc
    | some s =>
      simp only [List.foldl]
      rw [ih (acc ++ s), ih ("" ++ s), String.empty_append, String.append_assoc]

/-- Same initial-buffer property for the fold underlying `String.join`. -/
theorem foldl_append_init (l : List String) :
    ∀ a : String,
      l.foldl (fun r s => r ++ s) a = a ++ l.foldl (fun r s => r ++ s) "" := by
  induction l with
  | nil => intro a; simp [List.foldl, String.append_empty]
  | cons hd tl ih =>
    intro a
    simp only [List.foldl]
    rw [ih (a ++ hd), ih ("" ++ hd), String.empty_append, String.append_assoc]

/-- `String.join` peels its head string off the front. -/
theorem join_cons (s : String) (l : List String) :
    String.join (s :: l) = s ++ String.join l := by
  simp only [String.join, List.foldl]
  rw [foldl_append_init, String.empty_append]

/-- The accumulation loop of lines 245–248 concatenates, in arrival order,
exactly the deltas that are not `None`. -/
theorem accumulate_eq_join (chunks : List (Option String)) :
    accumulate chunks = String.join (chunks.filterMap id) := by
  induction chunks with
  | nil => rfl
  | cons hd tl ih =>
    cases hd with
    | none => simpa [accumulate, List.filterMap] using ih
    | some s =>
      simp only [accumulate, List.foldl, List.filterMap, id_eq]
      rw [foldl_accumStep, String.empty_append]
      simp only [accumulate] at ih
      rw [ih, join_cons]

/-- A stream of all-`None` deltas has no content to keep. -/
theorem filterMap_id_replicate_none (n : Nat) :
    (List.replicate n (none : Option String)).filterMap id = [] := by
  induction n with
  | zero => rfl
  | succ k ih => simp [List.replicate, List.filterMap, ih]

/-! ## Claim theorems -/

/-- C1: a user-turn cycle whose stream completes without a transport error
grows the conversation state by exactly two entries, appended in order — first
the user message with the submitted text, then the assistant message with the
full accumulated streamed text — and leaves every earlier entry unchanged. -/
theorem userTurn_ok_appends_user_then_assistant (c : TurnContext) (q : String)
    (chunks : List (Option String)) :
    chatInputHandler c q (StreamOutcome.ok chunks)
      = (c.history ++ [⟨Role.user, q⟩, ⟨Role.assistant, accumulate chunks⟩], none) := by
  simp [chatInputHandler]

/-- C2 counterexample: on a stream that delivers the delta "Hello " and then
raises, the handler leaves the history at exactly the seeded greeting plus the
user message; in particular the partially accumulated assistant text
"Hello " is NOT appended to the conversation state, refuting the claim that
the partial buffer is silently kept in the history. -/
theorem midStreamFailure_partial_not_committed_cex :
    (chatInputHandler
        ⟨"2026-10-12", 21/10, 42/10, "稳健型 (跑赢通胀)", etfTableString, [greeting]⟩
        "现在适合买长债吗" (StreamOutcome.failMid [some "Hello "] "ConnectionError")).1
      = [greeting, ⟨Role.user, "现在适合买长债吗"⟩]
    ∧ ⟨Role.assistant, "Hello "⟩ ∉
      (chatInputHandler
        ⟨"2026-10-12", 21/10, 42/10, "稳健型 (跑赢通胀)", etfTableString, [greeting]⟩
        "现在适合买长债吗" (StreamOutcome.failMid [some "Hello "] "ConnectionError")).1 := by
  decide

/-- C2 amended: if a transport/API error occurs mid-stream, the partially
accumulated assistant text is DISCARDED from the conversation state, not
appended: the history after the failed turn is exactly the prior history plus
the already-appended user message (the append of the assistant message at line
254 sits inside the `try` block and is skipped when the stream raises). -/
theorem midStreamFailure_discards_partial_from_history (c : TurnContext) (q : String)
    (chunks : List (Option String)) (err : String) :
    (chatInputHandler c q (StreamOutcome.failMid chunks err)).1 = c.history ++ [⟨Role.user, q⟩]
    ∧ (chatInputHandler c q (StreamOutcome.failMid chunks err)).1.length
        = c.history.length + 1 := by
  constructor
  · rfl
  · simp [chatInputHandler]

/-- C3: every exception raised by the remote call mid-stream is caught at the
call boundary — the handler is a total function, so nothing propagates out of
it — and a visible inline error message (line 257) is displayed. -/
theorem midStreamFailure_caught_and_error_displayed (c : TurnContext) (q : String)
    (chunks : List (Option String)) (err : String) :
    chatInputHandler c q (StreamOutcome.failMid chunks err)
      = (c.history ++ [⟨Role.user, q⟩], some ("❌ AI 掉线了: " ++ err)) := by
  simp [chatInputHandler, displayedError]

/-- C4 counterexample: when the credential is absent because a secrets file
exists but lacks the `DEEPSEEK_API_KEY` entry, the lookup raises `KeyError`,
which the `except FileNotFoundError` clause at line 24 does not match: startup
ends in an uncaught exception, not in a halt with the visible configuration
error — refuting "this holds for every way the credential can be absent". -/
theorem missingKey_not_halted_cex :
    startupCredentialCheck SecretsState.fileWithoutKey
        = StartupOutcome.uncaught SecretsExc.keyError
    ∧ startupCredentialCheck SecretsState.fileWithoutKey
        ≠ StartupOutcome.halted configErrorMsg := by
  decide

/-- C4 amended: if the credential is absent because no secrets file exists
(`FileNotFoundError`), startup halts before any UI renders with exactly the
one visible configuration-error message and no fallback; if a secrets file
exists but lacks the key, the resulting `KeyError` is not caught and
propagates as an uncaught exception; with the key present the script proceeds
with its value. -/
theorem credentialAbsence_outcomes :
    startupCredentialCheck SecretsState.noSecretsFile = StartupOutcome.halted configErrorMsg
    ∧ (∀ v : String, startupCredentialCheck (SecretsState.fileWithKey v)
        = StartupOutcome.proceed v)
    ∧ startupCredentialCheck SecretsState.fileWithoutKey
        = StartupOutcome.uncaught SecretsExc.keyError :=
  ⟨rfl, fun _ => rfl, rfl⟩

/-- C5 counterexample: two runs of `get_market_data` with the same seeded
noise stream but at different wall-clock instants (`datetime.now()` values 0
and 1) produce different 60-element sequences — the date column differs —
refuting the claim that the sequences are identical element-wise (dates
included) across any two runs. -/
theorem marketData_dates_differ_between_runs_cex :
    getMarketData (fun _ => 0) 0 ≠ getMarketData (fun _ => 0) 1
    ∧ (getMarketData (fun _ => 0) 0).map YieldPoint.date
        ≠ (getMarketData (fun _ => 0) 1).map YieldPoint.date := by
  decide

/-- C5 amended: for every two runs with the same fixed seed (hence the same
standard-normal stream), `get_market_data` produces identical 60-element
domestic and foreign yield columns; only the date column depends on the
external wall clock. -/
theorem marketData_yields_deterministic (gauss : Nat → ℚ) (a b : Int) :
    (getMarketData gauss a).map YieldPoint.cn = (getMarketData gauss b).map YieldPoint.cn
    ∧ (getMarketData gauss a).map YieldPoint.us = (getMarketData gauss b).map YieldPoint.us
    ∧ (getMarketData gauss a).length = 60 := by
  refine ⟨?_, ?_, ?_⟩ <;> simp [getMarketData, List.map_map, Function.comp]

/-- C6: the yield series starts at the anchors — day index 0 shows domestic
2.10 and foreign 4.20 exactly, no noise applied and unchanged by rounding —
each subsequent walk value is the previous one plus a gaussian draw of
standard deviation 0.02 (domestic) resp. 0.05 (foreign), and every displayed
value is the walk value rounded to 4 decimals. -/
theorem marketData_walk_anchor_recurrence_rounding (gauss : Nat → ℚ) (now : Int) :
    ((getMarketData gauss now).head?.map YieldPoint.cn = some (21/10)
      ∧ (getMarketData gauss now).head?.map YieldPoint.us = some (42/10))
    ∧ (∀ n : Nat,
        cnWalk gauss (n+1) = cnWalk gauss n + normalDraw gauss (2/100) (2*n)
        ∧ usWalk gauss (n+1) = usWalk gauss n + normalDraw gauss (5/100) (2*n+1))
    ∧ (∀ i : Fin 60,
        (getMarketData gauss now)[(i : Nat)]? =
          some ⟨now - (59 - (i : Int)),
                round4 (cnWalk gauss i), round4 (usWalk gauss i)⟩) := by
  have hcn : round4 (cnWalk gauss 0) = 21/10 := by
    norm_num [cnWalk, round4, roundHalfEven, ratFloor]
  have hus : round4 (usWalk gauss 0) = 42/10 := by
    norm_num [usWalk, round4, roundHalfEven, ratFloor]
  refine ⟨⟨?_, ?_⟩, fun n => ⟨rfl, rfl⟩, fun i => ?_⟩
  · simp [getMarketData, List.range_succ_eq_map, hcn]
  · simp [getMarketData, List.range_succ_eq_map, hus]
  · simp [getMarketData, List.getElem?_map, List.getElem?_range, i.isLt]

/-- C7: the clear-history action sets the conversation state to the empty
sequence, and on the rerun that follows the seeding guard does not reinsert
the greeting (the `"messages"` key is present), so the history stays empty. -/
theorem clearAction_empty_not_reseeded (s : Option (List ChatMessage)) :
    clearHistory s = some [] ∧ seedMessages (clearHistory s) = [] :=
  ⟨rfl, rfl⟩

set_option maxRecDepth 100000 in
/-- C8 counterexample: with domestic 2.10, foreign 4.20, risk 稳健型
(balanced) and the fixed instrument table all held fixed, two invocations of
the prompt builder on different wall-clock dates produce different strings —
`datetime.now()` at line 202 is a hidden input, refuting byte-for-byte
identity across any two invocations. -/
theorem systemPrompt_depends_on_run_date_cex :
    buildSystemPromptOf ⟨"2026-01-01", 21/10, 42/10, "稳健型 (跑赢通胀)", etfTableString, []⟩
    ≠ buildSystemPromptOf ⟨"2026-01-02", 21/10, 42/10, "稳健型 (跑赢通胀)", etfTableString, []⟩ := by
  decide

/-- C8 amended: the prompt builder is a pure function of the current date,
the two latest yields, the risk profile and the instrument table: for fixed
values of these — in particular any two invocations on the same date with
domestic 2.10, foreign 4.20, balanced risk and the fixed table — its output is
byte-for-byte identical, whatever the conversation history or any other
session state. -/
theorem systemPrompt_pure_in_date_and_inputs (t : String) (cn us : ℚ) (r e : String)
    (h₁ h₂ : List ChatMessage) :
    buildSystemPromptOf ⟨t, cn, us, r, e, h₁⟩ = buildSystemPromptOf ⟨t, cn, us, r, e, h₂⟩ :=
  rfl

/-- C9: the outbound chat-completion request contains exactly two messages —
the built system prompt and the latest user message — and never reads the
conversation history: two turn contexts differing only in their histories
yield identical requests. -/
theorem turnRequest_two_messages_ignores_history (t : String) (cn us : ℚ) (r e : String)
    (h₁ h₂ : List ChatMessage) (q : String) :
    turnRequest ⟨t, cn, us, r, e, h₁⟩ q = turnRequest ⟨t, cn, us, r, e, h₂⟩ q
    ∧ (turnRequest ⟨t, cn, us, r, e, h₁⟩ q).messages
        = [⟨Role.system, buildSystemPromptOf ⟨t, cn, us, r, e, h₁⟩⟩, ⟨Role.user, q⟩]
    ∧ (turnRequest ⟨t, cn, us, r, e, h₁⟩ q).messages.length = 2 :=
  ⟨rfl, rfl, rfl⟩

/-- C10: the committed assistant content is the in-order concatenation of
exactly the non-`None` content deltas of the stream; in particular a stream
that completes while every delta is `None` still appends an assistant message
with empty-string content. -/
theorem assistantContent_eq_join_nonNone_deltas :
    (∀ chunks : List (Option String),
        accumulate chunks = String.join (chunks.filterMap id))
    ∧ (∀ (c : TurnContext) (q : String) (n : Nat),
        chatInputHandler c q (StreamOutcome.ok (List.replicate n none))
          = (c.history ++ [⟨Role.user, q⟩, ⟨Role.assistant, ""⟩], none)) := by
  refine ⟨accumulate_eq_join, fun c q n => ?_⟩
  have h : accumulate (List.replicate n none) = "" := by
    rw [accumulate_eq_join, filterMap_id_replicate_none]
    rfl
  simp [chatInputHandler, h]
